import Mathlib

/-!
Verification of the go-nagios result-finalization library against its
specification.  The Go source (`nagios.go`) is embedded shallowly: Go
errors become an inductive wrapping chain, the `ExitState` struct becomes
a Lean structure, and the stateful methods become explicit state-passing
functions.  The process-exit and stack-trace collaborators are modelled
by returning the exit code and by taking the stack trace as a parameter.
-/

namespace GoNagios

/-- Nagios plugin/service check exit codes, from the source constants. -/
def StateOKExitCode : Int := 0

/-- WARNING exit code. -/
def StateWARNINGExitCode : Int := 1

/-- CRITICAL exit code. -/
def StateCRITICALExitCode : Int := 2

/-- UNKNOWN exit code. -/
def StateUNKNOWNExitCode : Int := 3

/-- DEPENDENT exit code. -/
def StateDEPENDENTExitCode : Int := 4

/-- Nagios state label, from the source constants. -/
def StateOKLabel : String := "OK"

/-- WARNING state label. -/
def StateWARNINGLabel : String := "WARNING"

/-- CRITICAL state label. -/
def StateCRITICALLabel : String := "CRITICAL"

/-- UNKNOWN state label. -/
def StateUNKNOWNLabel : String := "UNKNOWN"

/-- DEPENDENT state label. -/
def StateDEPENDENTLabel : String := "DEPENDENT"

/-- The end-of-line token used in rendered check output: a space followed
by a line feed (`CheckOutputEOL` in the source). -/
def CheckOutputEOL : String := " \n"

/-- Default header for the thresholds section. -/
def defaultThresholdsLabel : String := "THRESHOLDS"

/-- Default header for the errors section. -/
def defaultErrorsLabel : String := "ERRORS"

/-- Default header for the long service output section. -/
def defaultDetailedInfoLabel : String := "DETAILED INFO"

/-- A Go `error` value, modelled as either a sentinel error created by
`errors.New` with a message, or a wrapping error created by
`fmt.Errorf` with a `%w` verb followed by `: %s` and a suffix string. -/
inductive GoError where
  | sentinel : String → GoError
  | wrap : GoError → String → GoError
deriving DecidableEq

/-- The message text of a Go error: a sentinel carries its own message;
`fmt.Errorf` with format `"%w: %s"` produces the wrapped error's message,
a colon-space, and the suffix. -/
def errMessage : GoError → String
  | GoError.sentinel m => m
  | GoError.wrap e s => errMessage e ++ ": " ++ s

/-- Model of the Go errors.Is function: an error matches a target if it is the target or
wraps an error that matches it. -/
def errIs : GoError → GoError → Bool
  | GoError.sentinel m, t => GoError.sentinel m = t
  | GoError.wrap e s, t => (GoError.wrap e s = t) || errIs e t

/-- Sentinel error `ErrPanicDetected` from the source. -/
def ErrPanicDetected : GoError :=
  GoError.sentinel "plugin crash/panic detected"

/-- Sentinel error `ErrPerformanceDataMissingLabel` from the source. -/
def ErrPerformanceDataMissingLabel : GoError :=
  GoError.sentinel "provided performance data missing required label"

/-- Sentinel error `ErrPerformanceDataMissingValue` from the source. -/
def ErrPerformanceDataMissingValue : GoError :=
  GoError.sentinel "provided performance data missing required value"

/-- Sentinel error `ErrNoPerformanceDataProvided` from the source. -/
def ErrNoPerformanceDataProvided : GoError :=
  GoError.sentinel "no performance data provided"

/-- One performance data point, mirroring the `PerformanceData` struct:
all fields are free-form strings. -/
structure PerformanceData where
  Label : String
  Value : String
  UnitOfMeasurement : String
  Warn : String
  Crit : String
  Min : String
  Max : String
deriving DecidableEq

/-- Model of `PerformanceData.Validate` from the source: returns
`ErrPerformanceDataMissingLabel` when the label is empty, else
`ErrPerformanceDataMissingValue` when the value is empty, else no error
(`none` models a nil Go error).  The Go method takes its receiver by
value and writes nothing, so it is a pure function. -/
def PerformanceData.Validate (pd : PerformanceData) : Option GoError :=
  if pd.Label = "" then some ErrPerformanceDataMissingLabel
  else if pd.Value = "" then some ErrPerformanceDataMissingValue
  else none

/-- The `ExitState` struct from the source.  Go `error` fields become
`GoError` values; the `BrandingCallback` function field is modelled by
the string it would return (`none` models a nil callback).  Unexported
string fields default to the empty string in Go, which the label getters
treat as "not set". -/
structure ExitState where
  LastError : Option GoError
  Errors : List GoError
  ExitStatusCode : Int
  ServiceOutput : String
  LongServiceOutput : String
  perfData : List PerformanceData
  WarningThreshold : String
  CriticalThreshold : String
  thresholdsLabel : String
  errorsLabel : String
  detailedInfoLabel : String
  hideThresholdsSection : Bool
  hideErrorsSection : Bool
  BrandingCallback : Option String
deriving DecidableEq

/-- The zero value of `ExitState`, as Go would initialize it. -/
def emptyExitState : ExitState :=
  { LastError := none
    Errors := []
    ExitStatusCode := 0
    ServiceOutput := ""
    LongServiceOutput := ""
    perfData := []
    WarningThreshold := ""
    CriticalThreshold := ""
    thresholdsLabel := ""
    errorsLabel := ""
    detailedInfoLabel := ""
    hideThresholdsSection := false
    hideErrorsSection := false
    BrandingCallback := none }

/-- Model of `AddError` from the source: appends the provided errors to the
`Errors` collection. -/
def addError (es : ExitState) (errs : List GoError) : ExitState :=
  { es with Errors := es.Errors ++ errs }

/-- The validation loop inside `AddPerfData`: validate each metric in
order and return the first error encountered, or `none` when every
metric validates. -/
def firstValidationError : List PerformanceData → Option GoError
  | [] => none
  | p :: rest =>
    match p.Validate with
    | some e => some e
    | none => firstValidationError rest

/-- Model of `AddPerfData` from the source: returns `ErrNoPerformanceDataProvided`
on an empty batch; otherwise, unless `skipValidate` is set, validates
every metric and returns the first failure without appending anything;
otherwise appends the whole batch to `perfData`.  The pair returned is
the updated state and the Go error result (`none` models nil). -/
def addPerfData (es : ExitState) (skipValidate : Bool)
    (pd : List PerformanceData) : ExitState × Option GoError :=
  if pd.length = 0 then (es, some ErrNoPerformanceDataProvided)
  else if !skipValidate then
    match firstValidationError pd with
    | some e => (es, some e)
    | none => ({ es with perfData := es.perfData ++ pd }, none)
  else ({ es with perfData := es.perfData ++ pd }, none)

/-- Characters that the Go fmt scanner consumes between a percent sign and the
verb character: the flags `+ - space # 0` and width/precision digits and
dots.  (Argument-consuming `*` widths are outside this model, which only
covers zero-operand calls on simple verb forms.) -/
def isFmtFlagOrWidth (c : Char) : Bool :=
  c = '+' || c = '-' || c = ' ' || c = '#' || c = '0' || c.isDigit || c = '.'

/-- Model of the Go fmt formatting of a format string supplied with zero operands,
as done by `fmt.Fprintf(w, s)`: ordinary characters are copied; `%%`
emits a literal percent; a percent with no verb before the end of the
string emits `%!(NOVERB)`; any other verb, having no operand, emits
`%!v(MISSING)` where `v` is the verb character.  The first argument is
true while scanning flag/width characters after a percent sign. -/
def fmtNoArgsAux : Bool → List Char → List Char
  | false, [] => []
  | false, c :: rest =>
    if c = '%' then fmtNoArgsAux true rest
    else c :: fmtNoArgsAux false rest
  | true, [] => "%!(NOVERB)".data
  | true, c :: rest =>
    if isFmtFlagOrWidth c then fmtNoArgsAux true rest
    else if c = '%' then '%' :: fmtNoArgsAux false rest
    else '%' :: '!' :: c :: ("(MISSING)".data ++ fmtNoArgsAux false rest)

/-- Model of a fmt.Sprintf call on a format string with no further arguments: the string is interpreted
as a format template. -/
def sprintfNoArgs (s : String) : String :=
  String.mk (fmtNoArgsAux false s.data)

/-- The summary line emitted by `ReturnCheckResults`: the source passes
`es.ServiceOutput` to `fmt.Fprintf` as the format string with no
operands. -/
def renderSummary (es : ExitState) : String :=
  sprintfNoArgs es.ServiceOutput

/-- The panic-interception step at the top of `ReturnCheckResults`: when
`recover()` observed a panic payload (modelled by `some msg`, the `%s`
rendering of the payload), append `fmt.Errorf("%w: %s", ErrPanicDetected,
err)` to `Errors`, overwrite `ServiceOutput` with the fixed CRITICAL
template, overwrite `LongServiceOutput` with the panic message and the
stack trace from `debug.Stack()` (a collaborator, passed in as
`stackTrace`) inside a Markdown fence, and overwrite `ExitStatusCode`
with the CRITICAL code.  With no panic the state passes through. -/
def overriddenState (es : ExitState) (panicVal : Option String)
    (stackTrace : String) : ExitState :=
  match panicVal with
  | none => es
  | some msg =>
    let es1 := addError es [GoError.wrap ErrPanicDetected msg]
    { es1 with
      ServiceOutput :=
        StateCRITICALLabel ++
          ": plugin crash detected. See details via web UI or run plugin manually via CLI."
      LongServiceOutput :=
        "```" ++ CheckOutputEOL ++ msg ++ CheckOutputEOL ++ CheckOutputEOL ++
          stackTrace ++ CheckOutputEOL ++ "```"
      ExitStatusCode := StateCRITICALExitCode }

/-- The errors-section header: the custom `errorsLabel` when set (the Go zero value, the
empty string, means unset), else the default. -/
def errorsLabelText (es : ExitState) : String :=
  if es.errorsLabel = "" then defaultErrorsLabel else es.errorsLabel

/-- The thresholds-section header: custom `thresholdsLabel` or default. -/
def thresholdsLabelText (es : ExitState) : String :=
  if es.thresholdsLabel = "" then defaultThresholdsLabel else es.thresholdsLabel

/-- The long-output-section header: custom `detailedInfoLabel` or default. -/
def detailedInfoLabelText (es : ExitState) : String :=
  if es.detailedInfoLabel = "" then defaultDetailedInfoLabel
  else es.detailedInfoLabel

/-- One numbered error line per recorded error, numbering from the given
start, each line terminated by the end-of-line token. -/
def numberedErrorLines : Nat → List GoError → String
  | _, [] => ""
  | n, e :: rest =>
    toString n ++ ": " ++ errMessage e ++ CheckOutputEOL ++
      numberedErrorLines (n + 1) rest

/-- Modelled from the spec: the body of `handleErrorsSection`, whose code
is not part of the sources at hand.  Only when not suppressed by
`hideErrorsSection` and the error sequence is non-empty: a blank line,
the errors header, then each error on its own line numbered from 1 in
append order, each terminated by the end-of-line token. -/
def errorsSection (es : ExitState) : String :=
  if es.hideErrorsSection then ""
  else if es.Errors.isEmpty then ""
  else
    CheckOutputEOL ++ CheckOutputEOL ++ errorsLabelText es ++ CheckOutputEOL ++
      numberedErrorLines 1 es.Errors

/-- Modelled from the spec: the body of `handleThresholdsSection`, whose
code is not part of the sources at hand.  Only when not suppressed by
`hideThresholdsSection` and at least one threshold string is non-empty: a
blank line, the thresholds header, then a labeled end-of-line-terminated
line for whichever of warning/critical is non-empty. -/
def thresholdsSection (es : ExitState) : String :=
  if es.hideThresholdsSection then ""
  else if es.WarningThreshold = "" ∧ es.CriticalThreshold = "" then ""
  else
    CheckOutputEOL ++ CheckOutputEOL ++ thresholdsLabelText es ++
      CheckOutputEOL ++
      (if es.WarningThreshold = "" then ""
       else "Warning: " ++ es.WarningThreshold ++ CheckOutputEOL) ++
      (if es.CriticalThreshold = "" then ""
       else "Critical: " ++ es.CriticalThreshold ++ CheckOutputEOL)

/-- Modelled from the spec: the body of `handleLongServiceOutput`, whose
code is not part of the sources at hand.  Only when `LongServiceOutput`
is non-empty: a blank line, the detailed-info header, then the long text
verbatim. -/
def longServiceOutputSection (es : ExitState) : String :=
  if es.LongServiceOutput = "" then ""
  else
    CheckOutputEOL ++ CheckOutputEOL ++ detailedInfoLabelText es ++
      CheckOutputEOL ++ es.LongServiceOutput

/-- The branding segment, from the source: when a branding callback is
set, a fmt.Fprintf call with three string verbs emits the end-of-line token, the
callback's return value, and the token again; otherwise nothing. -/
def brandingSection (es : ExitState) : String :=
  match es.BrandingCallback with
  | some brand => CheckOutputEOL ++ brand ++ CheckOutputEOL
  | none => ""

/-- Modelled from the spec: the fixed header of the performance-data
section; the spec fixes its existence but not its text. -/
def perfDataHeaderText : String := "PERFDATA"

/-- Modelled from the spec: one rendered metric line,
`label=value[UOM];warn;crit;min;max` with empty optional fields rendered
as empty and all separator positions present. -/
def formatPerfData (pd : PerformanceData) : String :=
  pd.Label ++ "=" ++ pd.Value ++ pd.UnitOfMeasurement ++ ";" ++ pd.Warn ++
    ";" ++ pd.Crit ++ ";" ++ pd.Min ++ ";" ++ pd.Max ++ CheckOutputEOL

/-- All rendered metric lines in append order. -/
def perfDataLines : List PerformanceData → String
  | [] => ""
  | p :: rest => formatPerfData p ++ perfDataLines rest

/-- Modelled from the spec: the body of `handlePerformanceData`, whose
code is not part of the sources at hand.  Only when the metric sequence
is non-empty: a blank line, the fixed header, then one line per metric in
append order. -/
def perfDataSection (es : ExitState) : String :=
  if es.perfData.isEmpty then ""
  else
    CheckOutputEOL ++ CheckOutputEOL ++ perfDataHeaderText ++ CheckOutputEOL ++
      perfDataLines es.perfData

/-- The full rendered output of `ReturnCheckResults`, concatenated in the
source's call order: summary line, errors section, thresholds section,
long-output section, branding, performance data. -/
def renderOutput (es : ExitState) : String :=
  renderSummary es ++ errorsSection es ++ thresholdsSection es ++
    longServiceOutputSection es ++ brandingSection es ++ perfDataSection es

/-- Model of `ReturnCheckResults` from the source: apply the panic override when a
panic is propagating, render all sections into one builder, emit the
composed text with a single write, and pass the resulting
`ExitStatusCode` to `os.Exit`.  The pair returned models that single
write and that exit code. -/
def returnCheckResults (es : ExitState) (panicVal : Option String)
    (stackTrace : String) : String × Int :=
  let es1 := overriddenState es panicVal stackTrace
  (renderOutput es1, es1.ExitStatusCode)

/-- Appending the empty string on the right is the identity. -/
lemma string_append_empty (s : String) : s ++ "" = s := by
  cases s
  simp [String.append]

/-- The validation loop returns the head of the list of validation errors
taken in batch order. -/
lemma firstValidationError_eq_head (pd : List PerformanceData) :
    firstValidationError pd =
      (pd.filterMap PerformanceData.Validate).head? := by
  induction pd with
  | nil => rfl
  | cons p rest ih =>
      cases h : p.Validate <;>
        simp [firstValidationError, List.filterMap_cons, h, ih]

/-- When some metric of the batch fails validation, the validation loop
finds an error. -/
lemma firstValidationError_isSome {pd : List PerformanceData}
    (h : ∃ p ∈ pd, (PerformanceData.Validate p).isSome) :
    (firstValidationError pd).isSome := by
  induction pd with
  | nil => simp at h
  | cons q rest ih =>
      obtain ⟨p, hp, hv⟩ := h
      cases hq : q.Validate with
      | some e => simp [firstValidationError, hq]
      | none =>
          rcases List.mem_cons.mp hp with h1 | h2
          · subst h1; rw [hq] at hv; simp at hv
          · simpa [firstValidationError, hq] using ih ⟨p, h2, hv⟩

/-- When every metric of the batch validates, the validation loop finds
no error. -/
lemma firstValidationError_of_all_valid {pd : List PerformanceData}
    (h : ∀ p ∈ pd, PerformanceData.Validate p = none) :
    firstValidationError pd = none := by
  induction pd with
  | nil => rfl
  | cons q rest ih =>
      have hq := h q (List.mem_cons_self q rest)
      simp [firstValidationError, hq]
      exact ih fun p hp => h p (List.mem_cons_of_mem q hp)

/-- C1: when an unhandled panic is propagating as `ReturnCheckResults`
runs, the override step appends one synthetic error wrapping the panic
payload, which `errors.Is`-matches `ErrPanicDetected`, to the `Errors`
sequence; unconditionally overwrites `ServiceOutput` with the fixed
CRITICAL template; unconditionally overwrites `LongServiceOutput` with a
fenced block holding the panic message and the non-empty stack trace,
each surrounded by the end-of-line token; and unconditionally overwrites
`ExitStatusCode` with 2 — for every prior state `es`. -/
theorem returnCheckResults_panic_override (es : ExitState)
    (msg stackTrace : String) (hst : stackTrace ≠ "") :
    (overriddenState es (some msg) stackTrace).Errors
        = es.Errors ++ [GoError.wrap ErrPanicDetected msg] ∧
    errIs (GoError.wrap ErrPanicDetected msg) ErrPanicDetected = true ∧
    (overriddenState es (some msg) stackTrace).ServiceOutput
        = "CRITICAL: plugin crash detected. See details via web UI or run plugin manually via CLI." ∧
    (overriddenState es (some msg) stackTrace).LongServiceOutput
        = "```" ++ CheckOutputEOL ++ msg ++ CheckOutputEOL ++ CheckOutputEOL ++
            stackTrace ++ CheckOutputEOL ++ "```" ∧
    stackTrace ≠ "" ∧
    (overriddenState es (some msg) stackTrace).ExitStatusCode = 2 := by
  refine ⟨rfl, ?_, rfl, rfl, hst, rfl⟩
  simp [errIs, ErrPanicDetected]

/-- Witness for C1 at a concrete panic payload and stack trace. -/
theorem returnCheckResults_panic_override_witness :
    ("goroutine 1 ..." : String) ≠ "" ∧
    ((overriddenState emptyExitState (some "runtime error")
        "goroutine 1 ...").Errors
        = emptyExitState.Errors
            ++ [GoError.wrap ErrPanicDetected "runtime error"] ∧
    errIs (GoError.wrap ErrPanicDetected "runtime error") ErrPanicDetected
        = true ∧
    (overriddenState emptyExitState (some "runtime error")
        "goroutine 1 ...").ServiceOutput
        = "CRITICAL: plugin crash detected. See details via web UI or run plugin manually via CLI." ∧
    (overriddenState emptyExitState (some "runtime error")
        "goroutine 1 ...").LongServiceOutput
        = "```" ++ CheckOutputEOL ++ "runtime error" ++ CheckOutputEOL ++
            CheckOutputEOL ++ "goroutine 1 ..." ++ CheckOutputEOL ++ "```" ∧
    ("goroutine 1 ..." : String) ≠ "" ∧
    (overriddenState emptyExitState (some "runtime error")
        "goroutine 1 ...").ExitStatusCode = 2) :=
  ⟨by decide, returnCheckResults_panic_override emptyExitState
      "runtime error" "goroutine 1 ..." (by decide)⟩

/-- C2: on a batch containing at least one invalid metric, `AddPerfData`
without validation skipping returns the first validation error in batch
order (the head of the in-order list of validation failures) and leaves
the state — in particular `perfData` — exactly unchanged. -/
theorem addPerfData_invalid_batch_rejected (es : ExitState)
    (pd : List PerformanceData)
    (h : ∃ p ∈ pd, (PerformanceData.Validate p).isSome) :
    (addPerfData es false pd).1 = es ∧
    (addPerfData es false pd).2 =
      (pd.filterMap PerformanceData.Validate).head? ∧
    ((pd.filterMap PerformanceData.Validate).head?).isSome := by
  have hne : pd.length ≠ 0 := by
    obtain ⟨p, hp, _⟩ := h
    cases pd
    · simp at hp
    · simp
  have hs := firstValidationError_isSome h
  obtain ⟨e, he⟩ := Option.isSome_iff_exists.mp hs
  refine ⟨?_, ?_, ?_⟩
  · simp [addPerfData, hne, he]
  · rw [← firstValidationError_eq_head]
    simp [addPerfData, hne, he]
  · rw [← firstValidationError_eq_head]
    exact hs

/-- Witness for C2: a batch whose second metric misses its value. -/
theorem addPerfData_invalid_batch_rejected_witness :
    (∃ p ∈ [PerformanceData.mk "time" "12ms" "" "" "" "" "",
            PerformanceData.mk "load" "" "" "" "" "" ""],
        (PerformanceData.Validate p).isSome) ∧
    ((addPerfData emptyExitState false
        [PerformanceData.mk "time" "12ms" "" "" "" "" "",
         PerformanceData.mk "load" "" "" "" "" "" ""]).1 = emptyExitState ∧
    (addPerfData emptyExitState false
        [PerformanceData.mk "time" "12ms" "" "" "" "" "",
         PerformanceData.mk "load" "" "" "" "" "" ""]).2 =
      ([PerformanceData.mk "time" "12ms" "" "" "" "" "",
        PerformanceData.mk "load" "" "" "" "" "" ""].filterMap
          PerformanceData.Validate).head? ∧
    (([PerformanceData.mk "time" "12ms" "" "" "" "" "",
       PerformanceData.mk "load" "" "" "" "" "" ""].filterMap
          PerformanceData.Validate).head?).isSome) :=
  ⟨by decide, addPerfData_invalid_batch_rejected emptyExitState _ (by decide)⟩

/-- C3: an empty batch always yields `ErrNoPerformanceDataProvided` and
leaves the whole state unchanged, for either value of the skip flag. -/
theorem addPerfData_empty_batch (es : ExitState) (skipValidate : Bool) :
    addPerfData es skipValidate []
      = (es, some ErrNoPerformanceDataProvided) := rfl

/-- C4: on a non-empty batch in which every metric validates, or with
validation skipped, `AddPerfData` succeeds and the metric sequence
becomes its prior contents followed by the batch in input order; no other
field changes. -/
theorem addPerfData_valid_batch_appends (es : ExitState)
    (skipValidate : Bool) (pd : List PerformanceData) (hne : pd ≠ [])
    (h : skipValidate = true ∨
      ∀ p ∈ pd, PerformanceData.Validate p = none) :
    addPerfData es skipValidate pd =
      ({ es with perfData := es.perfData ++ pd }, none) := by
  have hlen : pd.length ≠ 0 := by
    cases pd
    · exact absurd rfl hne
    · simp
  rcases h with h | h
  · subst h; simp [addPerfData, hlen]
  · have := firstValidationError_of_all_valid h
    cases skipValidate <;> simp [addPerfData, hlen, this]

/-- Witness for C4 at a concrete valid two-metric batch. -/
theorem addPerfData_valid_batch_appends_witness :
    ([PerformanceData.mk "time" "12ms" "" "" "" "" "",
      PerformanceData.mk "users" "7" "" "" "" "" ""]
        ≠ ([] : List PerformanceData)) ∧
    ((false = true) ∨
      ∀ p ∈ [PerformanceData.mk "time" "12ms" "" "" "" "" "",
             PerformanceData.mk "users" "7" "" "" "" "" ""],
        PerformanceData.Validate p = none) ∧
    addPerfData emptyExitState false
        [PerformanceData.mk "time" "12ms" "" "" "" "" "",
         PerformanceData.mk "users" "7" "" "" "" "" ""] =
      ({ emptyExitState with
          perfData := emptyExitState.perfData ++
            [PerformanceData.mk "time" "12ms" "" "" "" "" "",
             PerformanceData.mk "users" "7" "" "" "" "" ""] }, none) :=
  ⟨by decide, Or.inr (by decide),
   addPerfData_valid_batch_appends emptyExitState false _ (by decide)
     (Or.inr (by decide))⟩

/-- C5: validation returns the missing-label error exactly when the label
is empty, else the missing-value error exactly when the value is empty,
else no error; the function is pure, mutating nothing. -/
theorem performanceData_validate_spec (pd : PerformanceData) :
    (pd.Label = "" → pd.Validate = some ErrPerformanceDataMissingLabel) ∧
    (pd.Label ≠ "" → pd.Value = "" →
      pd.Validate = some ErrPerformanceDataMissingValue) ∧
    (pd.Label ≠ "" → pd.Value ≠ "" → pd.Validate = none) := by
  refine ⟨fun h => ?_, fun h1 h2 => ?_, fun h1 h2 => ?_⟩ <;>
    simp [PerformanceData.Validate, *]

/-- Witness for C5 at the three concrete cases. -/
theorem performanceData_validate_spec_witness :
    ((PerformanceData.mk "" "1" "" "" "" "" "").Label = "" ∧
     (PerformanceData.mk "" "1" "" "" "" "" "").Validate
        = some ErrPerformanceDataMissingLabel) ∧
    ((PerformanceData.mk "load" "" "" "" "" "" "").Label ≠ "" ∧
     (PerformanceData.mk "load" "" "" "" "" "" "").Validate
        = some ErrPerformanceDataMissingValue) ∧
    ((PerformanceData.mk "load" "0.5" "" "" "" "" "").Label ≠ "" ∧
     (PerformanceData.mk "load" "0.5" "" "" "" "" "").Value ≠ "" ∧
     (PerformanceData.mk "load" "0.5" "" "" "" "" "").Validate = none) :=
  ⟨⟨rfl, (performanceData_validate_spec _).1 rfl⟩,
   ⟨by decide, (performanceData_validate_spec _).2.1 (by decide) rfl⟩,
   ⟨by decide, by decide,
    (performanceData_validate_spec _).2.2 (by decide) (by decide)⟩⟩

/-- C6: contrary to the claim, the summary line is not emitted verbatim:
the source passes `ServiceOutput` to `fmt.Fprintf` as the format string,
so formatting characters are interpreted.  At the failing input
`ServiceOutput` set to a string ending in a percent sign, the emitted
summary gains a NOVERB diagnostic and differs from the field value,
contradicting the source comment that the content is emitted as-is. -/
theorem serviceOutput_format_interpretation :
    renderSummary { emptyExitState with ServiceOutput := "coverage 100%" }
        = "coverage 100%!(NOVERB)" ∧
    renderSummary { emptyExitState with ServiceOutput := "coverage 100%" }
        ≠ ({ emptyExitState with
              ServiceOutput := "coverage 100%" } : ExitState).ServiceOutput := by
  constructor
  · rfl
  · decide

/-- C7: the rendered output carries the end-of-line token, the branding
value, then the token again — placed after the long-output section and
before the performance-data section — exactly when a branding callback is
set; with no callback the branding segment is absent. -/
theorem branding_emitted_iff_callback_set (es : ExitState) :
    (∀ b, es.BrandingCallback = some b →
      renderOutput es =
        renderSummary es ++ errorsSection es ++ thresholdsSection es ++
          longServiceOutputSection es ++
          (CheckOutputEOL ++ b ++ CheckOutputEOL) ++ perfDataSection es) ∧
    (es.BrandingCallback = none →
      renderOutput es =
        renderSummary es ++ errorsSection es ++ thresholdsSection es ++
          longServiceOutputSection es ++ perfDataSection es) := by
  constructor
  · intro b hb
    simp [renderOutput, brandingSection, hb]
  · intro hb
    simp [renderOutput, brandingSection, hb, string_append_empty]

/-- Witness for C7 with a callback returning a concrete branding line. -/
theorem branding_emitted_iff_callback_set_witness :
    ({ emptyExitState with
        BrandingCallback := some "MyPlugin v1.0" } : ExitState).BrandingCallback
      = some "MyPlugin v1.0" ∧
    renderOutput { emptyExitState with
        BrandingCallback := some "MyPlugin v1.0" } =
      renderSummary { emptyExitState with
          BrandingCallback := some "MyPlugin v1.0" } ++
        errorsSection { emptyExitState with
          BrandingCallback := some "MyPlugin v1.0" } ++
        thresholdsSection { emptyExitState with
          BrandingCallback := some "MyPlugin v1.0" } ++
        longServiceOutputSection { emptyExitState with
          BrandingCallback := some "MyPlugin v1.0" } ++
        (CheckOutputEOL ++ "MyPlugin v1.0" ++ CheckOutputEOL) ++
        perfDataSection { emptyExitState with
          BrandingCallback := some "MyPlugin v1.0" } :=
  ⟨rfl, (branding_emitted_iff_callback_set _).1 "MyPlugin v1.0" rfl⟩

/-- C8: `ReturnCheckResults` composes its single written output from the
sections in the fixed order summary, errors, thresholds, long output,
branding, performance data (over the possibly panic-overridden state) and
exits with the possibly overridden `ExitStatusCode`; any integer exit
status is passed through without validation against the 0..4 range. -/
theorem returnCheckResults_section_order_and_exit (es : ExitState)
    (panicVal : Option String) (st : String) :
    returnCheckResults es panicVal st =
      (renderSummary (overriddenState es panicVal st) ++
         errorsSection (overriddenState es panicVal st) ++
         thresholdsSection (overriddenState es panicVal st) ++
         longServiceOutputSection (overriddenState es panicVal st) ++
         brandingSection (overriddenState es panicVal st) ++
         perfDataSection (overriddenState es panicVal st),
       (overriddenState es panicVal st).ExitStatusCode) ∧
    (returnCheckResults es none st).2 = es.ExitStatusCode ∧
    (∀ n : Int,
      (returnCheckResults { es with ExitStatusCode := n } none st).2 = n) :=
  ⟨rfl, rfl, fun _ => rfl⟩

/-- C9: `AddError` with an empty variadic list returns normally and
leaves the state, in particular the `Errors` sequence, unchanged. -/
theorem addError_empty_noop (es : ExitState) : addError es [] = es := by
  simp [addError]

/-- C10: `AddPerfData` never modifies any field of the state other than
the internal metric sequence, whichever branch it takes. -/
theorem addPerfData_frame (es : ExitState) (skipValidate : Bool)
    (pd : List PerformanceData) :
    ((addPerfData es skipValidate pd).1.LastError = es.LastError ∧
     (addPerfData es skipValidate pd).1.Errors = es.Errors ∧
     (addPerfData es skipValidate pd).1.ExitStatusCode = es.ExitStatusCode ∧
     (addPerfData es skipValidate pd).1.ServiceOutput = es.ServiceOutput ∧
     (addPerfData es skipValidate pd).1.LongServiceOutput
        = es.LongServiceOutput) ∧
    ((addPerfData es skipValidate pd).1.WarningThreshold
        = es.WarningThreshold ∧
     (addPerfData es skipValidate pd).1.CriticalThreshold
        = es.CriticalThreshold ∧
     (addPerfData es skipValidate pd).1.thresholdsLabel = es.thresholdsLabel ∧
     (addPerfData es skipValidate pd).1.errorsLabel = es.errorsLabel ∧
     (addPerfData es skipValidate pd).1.detailedInfoLabel
        = es.detailedInfoLabel) ∧
    (addPerfData es skipValidate pd).1.hideThresholdsSection
        = es.hideThresholdsSection ∧
    (addPerfData es skipValidate pd).1.hideErrorsSection
        = es.hideErrorsSection ∧
    (addPerfData es skipValidate pd).1.BrandingCallback
        = es.BrandingCallback := by
  unfold addPerfData
  split
  · simp
  · split
    · split <;> simp
    · simp

end GoNagios
